import Mathlib

/-
Shallow embedding of src/widget.py (PIDTester).

Python floats are modelled as exact rationals (ℚ).  Python `round(x, 4)`
is `round4` (round half to even, as Python's `round` does on exact
half-way values); Python `int(x)` is `pyint` (truncation toward zero).
-/

/-- Round half to even to the nearest integer, the tie rule of Python `round`. -/
def rhe (x : ℚ) : ℤ :=
  let f : ℤ := ⌊x⌋
  let r : ℚ := x - (f : ℚ)
  if r < 1/2 then f
  else if 1/2 < r then f + 1
  else if f % 2 = 0 then f else f + 1

/-- Python `round(x, 4)`: round to 4 decimal places. -/
def round4 (x : ℚ) : ℚ := (rhe (x * 10000) : ℚ) / 10000

/-- Python `int(x)` on a real number: truncation toward zero. -/
def pyint (q : ℚ) : ℤ := q.num.tdiv (q.den : ℤ)

/-- State of the `pid_control` class of src/widget.py (fields in source order). -/
structure pid_control where
  Kp : ℚ
  Ki : ℚ
  Kd : ℚ
  current_value : ℚ
  cycle : ℕ
  error : ℚ
  dt_error : ℚ
  deriving DecidableEq, Repr

namespace pid_control

/-- State built by `pid_control()` with the default constructor arguments
`_kp=0.1, _ki=0, _kd=0.0001`; `current_value = 0`, `cycle = 1`,
`error = 0`, `dt_error = 0`. -/
def init : pid_control :=
  ⟨0.1, 0, 0.0001, 0, 1, 0, 0⟩

/-- Method `set_new_params(self, params)`: unpacks the triple into the gains. -/
def set_new_params (s : pid_control) (p : ℚ × ℚ × ℚ) : pid_control :=
  { s with Kp := p.1, Ki := p.2.1, Kd := p.2.2 }

/-- Method `calc_p`: `round(float(self.Kp * self.error), 4)`. -/
def calc_p (s : pid_control) : ℚ := round4 (s.Kp * s.error)

/-- Method `calc_i`: `round(float(self.Ki * self.dt_error), 4)`. -/
def calc_i (s : pid_control) : ℚ := round4 (s.Ki * s.dt_error)

/-- Method `calc_d`: `round(float(self.Kd * _error), 4)`. -/
def calc_d (s : pid_control) (e : ℚ) : ℚ := round4 (s.Kd * e)

/-- Method `pid_calc(self, _target)`: the state after one call, following the
source statement by statement (`_c = 0`; set `error`; add `calc_p()`;
accumulate `dt_error`; add `calc_i()`; `temp = dt_error / cycle`; add
`calc_d(temp)`; add `_c` to `current_value`; increment `cycle`). -/
def pid_calc (s : pid_control) (t : ℚ) : pid_control :=
  let s1 := { s with error := t - s.current_value }
  let c1 := 0 + s1.calc_p
  let s2 := { s1 with dt_error := s1.dt_error + s1.error }
  let c2 := c1 + s2.calc_i
  let temp := s2.dt_error / (s2.cycle : ℚ)
  let c3 := c2 + s2.calc_d temp
  { s2 with current_value := s2.current_value + c3, cycle := s2.cycle + 1 }

/-- The value the Python call `pid_calc(_target)` evaluates to: the method body
has no `return` statement, so the call returns `None` (modelled as `none`). -/
def pid_calc_ret (_s : pid_control) (_t : ℚ) : Option ℚ := none

/-- Method `get_current_value`. -/
def get_current_value (s : pid_control) : ℚ := s.current_value

/-- Method `err`. -/
def err (s : pid_control) : ℚ := s.error

/-- Method `pv`: `int(self.current_value)`. -/
def pv (s : pid_control) : ℤ := pyint s.current_value

end pid_control

/-- The engine state after a sequence of `pid_calc` calls with the given
targets, starting from a fresh `pid_control()`. -/
def step_seq (ts : List ℚ) : pid_control :=
  ts.foldl pid_control.pid_calc pid_control.init

/-- The cross-thread state a session's worker and UI share in src/widget.py:
the `Serial` object's `pid_controller` and the module-level global `setpoint`. -/
structure Session where
  pid : pid_control
  setpoint : ℚ
  deriving DecidableEq, Repr

/-- Session state right after `Serial.__init__` at module start:
`self.pid_controller = pid_control()` and the module-level `setpoint = 0`. -/
def session_init : Session := ⟨pid_control.init, 0⟩

namespace Serial

/-- Method `Serial.send` on a string command: appends a newline and writes the
result to the transport; the returned string is the bytes written. -/
def send (msg : String) : String := msg ++ "\n"

end Serial

namespace Widget

/-- Method `Widget.send_values`, one Python `float(text)` call per text field
modelled by its outcome: `some v` when the text parses to the value `v`,
`none` when `float` raises `ValueError`.  The source first evaluates the
tuple `(float(P), float(I), float(D))` (any failure aborts before mutation),
then calls `set_new_params`, then evaluates `float(SetPoint)` and assigns the
global `setpoint`.  Result: the state after the call, and whether an
exception escaped (`true` = the action failed). -/
def send_values (pP pI pD pS : Option ℚ) (s : Session) : Session × Bool :=
  match pP, pI, pD with
  | some kp, some ki, some kd =>
      let s1 : Session := ⟨s.pid.set_new_params (kp, ki, kd), s.setpoint⟩
      match pS with
      | some sp => (⟨s1.pid, sp⟩, false)
      | none => (s1, true)
  | _, _, _ => (s, true)

/-- Method `Widget.send_stop`: calls `self.serial.send("stop")` and nothing
else; the session state (engine and setpoint) is not touched and
`pid_control` has no reset method.  Result: the state after the click and
the frame written to the transport. -/
def send_stop (s : Session) : Session × String := (s, Serial.send "stop")

end Widget

/-- One iteration of the `Serial.calc` worker loop: call
`pid_calc(setpoint)`, then forward `pid_controller.pv()` to the
process-value sink and `setpoint` to the setpoint sink.  Result: the new
engine state and the two forwarded sample values, in forwarding order. -/
def calc_iter (s : pid_control) (sp : ℚ) : pid_control × ℚ × ℚ :=
  let s1 := s.pid_calc sp
  (s1, ((s1.pv : ℚ), sp))

/-- One `readline` outcome seen by the body of the `Serial.recv` loop:
either some exception was raised while reading or parsing the line
(`exn`, with a flag recording whether it was a transport-level fatal
failure — the source code never distinguishes), or the line decoded to a
record whose `pos_cnt` field is `v` (`sample v`). -/
inductive ReadEvent where
  | exn (fatal : Bool)
  | sample (v : ℚ)
  deriving DecidableEq, Repr

/-- What `Serial.recv` does over a run: the samples it forwarded to the data
connector, how many error signals it surfaced to the UI, and whether it kept
looping through every read (as opposed to terminating early on a failure). -/
structure RecvOutcome where
  samples : List ℚ
  errors_surfaced : ℕ
  processed_all : Bool
  deriving DecidableEq, Repr

/-- The body of the `Serial.recv` loop for one read event: on success the
value is appended to the sink; the `except Exception` handler is `pass`, so
any exception — parse error or fatal transport failure alike — contributes
nothing and the loop moves on. -/
def recv_iter (acc : List ℚ) : ReadEvent → List ℚ
  | .exn _ => acc
  | .sample v => acc ++ [v]

/-- Method `Serial.recv` over a list of read events (with `_alive` held true
throughout): the loop has no `break`, no `raise` and no signal emission —
its only exit is the `_alive` flag — so every event is processed and no
error is ever surfaced. -/
def recv (events : List ReadEvent) : RecvOutcome :=
  ⟨events.foldl recv_iter [], 0, true⟩

/-- The sample a single read event contributes, if any. -/
def recv_event_value : ReadEvent → Option ℚ
  | .exn _ => none
  | .sample v => some v

/-- A Qt signal emission of `WorkerSignals`, as recorded in order by
`Worker.run`: `E` is the exception data (type, value, formatted traceback),
`A` the wrapped function's return type. -/
inductive WSignal (E A : Type) where
  | finished
  | error (e : E)
  | result (a : A)

/-- Method `Worker.run`: run the wrapped function (its outcome `r` is either
an exception `e` or a return value `a`); the `except` branch emits
`error(e)`, the `else` branch emits `result(a)`, and the `finally` branch
always emits `finished` afterwards.  Result: the emission trace in order. -/
def worker_run (E A : Type) (r : Except E A) : List (WSignal E A) :=
  (match r with
   | .error e => [WSignal.error e]
   | .ok a => [WSignal.result a]) ++ [WSignal.finished]

/-- Recognizer for the `finished` signal. -/
def WSignal.isFinished {E A : Type} : WSignal E A → Bool
  | .finished => true
  | _ => false

lemma foldl_pid_calc_cycle (ts : List ℚ) :
    ∀ s : pid_control, (ts.foldl pid_control.pid_calc s).cycle = s.cycle + ts.length := by
  induction ts with
  | nil => intro s; simp
  | cons t ts ih =>
      intro s
      simp only [List.foldl_cons, List.length_cons, ih]
      simp [pid_control.pid_calc]
      omega

lemma pid_calc_current_value (s : pid_control) (t : ℚ) :
    (s.pid_calc t).current_value =
      s.current_value
        + round4 (s.Kp * (t - s.current_value))
        + round4 (s.Ki * (s.dt_error + (t - s.current_value)))
        + round4 (s.Kd * ((s.dt_error + (t - s.current_value)) / (s.cycle : ℚ))) := by
  simp [pid_control.pid_calc, pid_control.calc_p, pid_control.calc_i, pid_control.calc_d]
  ring

lemma round4_exact (x : ℚ) (n : ℤ) (h : x * 10000 = (n : ℚ)) :
    round4 x = (n : ℚ) / 10000 := by
  unfold round4 rhe
  rw [h]
  norm_num [Int.floor_intCast]

lemma pid_calc_init_ten :
    (pid_control.pid_calc pid_control.init 10).current_value = 1001/1000 := by
  have hp : round4 ((0.1 : ℚ) * (10 - 0)) = ((10000 : ℤ) : ℚ) / 10000 :=
    round4_exact _ 10000 (by norm_num)
  have hi : round4 ((0 : ℚ) * (0 + (10 - 0))) = ((0 : ℤ) : ℚ) / 10000 :=
    round4_exact _ 0 (by norm_num)
  have hd : round4 ((0.0001 : ℚ) * ((0 + (10 - 0)) / ((1 : ℕ) : ℚ))) =
      ((10 : ℤ) : ℚ) / 10000 :=
    round4_exact _ 10 (by norm_num)
  have h := pid_calc_current_value pid_control.init 10
  rw [show pid_control.init.Kp = 0.1 from rfl, show pid_control.init.Ki = 0 from rfl,
    show pid_control.init.Kd = 0.0001 from rfl,
    show pid_control.init.current_value = 0 from rfl,
    show pid_control.init.dt_error = 0 from rfl,
    show pid_control.init.cycle = 1 from rfl] at h
  rw [h, hp, hi, hd]
  norm_num

lemma recv_foldl_eq (events : List ReadEvent) :
    ∀ acc : List ℚ, events.foldl recv_iter acc = acc ++ events.filterMap recv_event_value := by
  induction events with
  | nil => intro acc; simp
  | cons e es ih =>
      intro acc
      cases e <;> simp [recv_iter, recv_event_value, ih]

/-- C1: each `pid_calc` call with target `t` updates `current_value` exactly
once, adding the three individually 4-decimal-rounded terms
`round4(Kp*error) + round4(Ki*dt_error) + round4(Kd*(dt_error/cycle))`,
where `error = t - current_value` at entry and `dt_error` already includes
the current error when the integral and derivative terms are computed. -/
theorem C1_pid_step (s : pid_control) (t : ℚ) :
    (s.pid_calc t).current_value =
      s.current_value
        + round4 (s.Kp * (t - s.current_value))
        + round4 (s.Ki * (s.dt_error + (t - s.current_value)))
        + round4 (s.Kd * ((s.dt_error + (t - s.current_value)) / (s.cycle : ℚ))) :=
  pid_calc_current_value s t

/-- C2 counterexample: text fields `Kp="1", Ki="2", Kd="3"` parse but the
setpoint field does not (`none`).  The action fails (an exception escapes),
yet the state was mutated: the gains were already replaced (Kp is now 1),
contradicting "the action is rejected and no state is mutated". -/
theorem C2_partial_application :
    (Widget.send_values (some 1) (some 2) (some 3) none session_init).2 = true ∧
    (Widget.send_values (some 1) (some 2) (some 3) none session_init).1 ≠ session_init ∧
    (Widget.send_values (some 1) (some 2) (some 3) none session_init).1.pid.Kp = 1 := by
  refine ⟨rfl, ?_, rfl⟩
  intro h
  have h1 : (Widget.send_values (some 1) (some 2) (some 3) none session_init).1.pid.Kp
      = session_init.pid.Kp := by rw [h]
  have h2 : (1 : ℚ) = 0.1 := by
    simpa [Widget.send_values, pid_control.set_new_params, session_init,
      pid_control.init] using h1
  norm_num at h2

/-- C2 amended: if any of the three gain fields fails to parse, the action is
rejected with no state mutated; but if all three gain fields parse and the
setpoint field fails, the gains are replaced while the setpoint stays
unchanged — a partial application — and the exception escapes. -/
theorem C2_reject_only_on_gain_fail
    (pP pI pD pS : Option ℚ) (s : Session) :
    ((pP = none ∨ pI = none ∨ pD = none) → Widget.send_values pP pI pD pS s = (s, true)) ∧
    (∀ kp ki kd : ℚ, pP = some kp → pI = some ki → pD = some kd → pS = none →
      Widget.send_values pP pI pD pS s =
        (⟨s.pid.set_new_params (kp, ki, kd), s.setpoint⟩, true)) := by
  constructor
  · rintro (rfl | rfl | rfl)
    · cases pI <;> cases pD <;> rfl
    · cases pP <;> cases pD <;> rfl
    · cases pP <;> cases pI <;> rfl
  · rintro kp ki kd rfl rfl rfl rfl
    rfl

/-- C2 witness: a failing Kp field leaves the fresh session unchanged. -/
theorem C2_gain_fail_witness :
    Widget.send_values none (some 0) (some 0) (some 0) session_init = (session_init, true) :=
  (C2_reject_only_on_gain_fail none (some 0) (some 0) (some 0)
    session_init).1 (Or.inl rfl)

/-- C3 counterexample: `pid_calc` has no `return` statement, so on the fresh
engine with target 1 it returns `None`, not the new process value. -/
theorem C3_returns_none_counterexample :
    pid_control.pid_calc_ret pid_control.init 1 ≠
      some ((pid_control.pid_calc pid_control.init 1).get_current_value) := by
  simp [pid_control.pid_calc_ret]

/-- C3 amended: `pid_calc` returns `None` for every state and target; the new
process value is instead observable via `get_current_value` after the call. -/
theorem C3_value_via_get_current_value (s : pid_control) (t : ℚ) :
    pid_control.pid_calc_ret s t = none ∧
    (s.pid_calc t).get_current_value = (s.pid_calc t).current_value :=
  ⟨rfl, rfl⟩

/-- C4 counterexample: one iteration from the fresh engine with setpoint 10
computes process value 1.001 but forwards `pv() = int(1.001) = 1` to the
process-value sink, so the forwarded sample is not the process value. -/
theorem C4_forwarded_sample_truncated :
    (calc_iter pid_control.init 10).2.1 ≠
      (pid_control.pid_calc pid_control.init 10).current_value := by
  have hs : (calc_iter pid_control.init 10).2.1 =
      ((pid_control.pid_calc pid_control.init 10).pv : ℚ) := rfl
  rw [hs, pid_calc_init_ten]
  intro h
  have h2 : (((pid_control.pid_calc pid_control.init 10).pv : ℚ)) * 1000 = 1001 := by
    rw [h]; norm_num
  have h3 : (pid_control.pid_calc pid_control.init 10).pv * 1000 = 1001 := by
    exact_mod_cast h2
  omega

/-- C4 amended: every `Serial.calc` iteration forwards exactly two samples
after the step — the int-truncation `pv()` of the new process value to the
process-value sink, and the setpoint to the setpoint sink. -/
theorem C4_two_samples (s : pid_control) (sp : ℚ) :
    (calc_iter s sp).1 = s.pid_calc sp ∧
    (calc_iter s sp).2.1 = (((s.pid_calc sp).pv : ℤ) : ℚ) ∧
    (calc_iter s sp).2.2 = sp :=
  ⟨rfl, rfl, rfl⟩

/-- C5: the stop action only writes the frame `"stop\n"`; the engine state —
here the state after one step toward setpoint 10, with `dt_error = 10` — is
returned unchanged, because `pid_control` has no `reset` method and
`send_stop` never touches the engine, so accumulated integral error does
carry over into a subsequent start. -/
theorem C5_stop_does_not_reset :
    (Widget.send_stop ⟨pid_control.pid_calc pid_control.init 10, 10⟩).1 =
      ⟨pid_control.pid_calc pid_control.init 10, 10⟩ ∧
    (pid_control.pid_calc pid_control.init 10).dt_error = 10 ∧
    (Widget.send_stop ⟨pid_control.pid_calc pid_control.init 10, 10⟩).2 = "stop\n" := by
  refine ⟨rfl, ?_, rfl⟩
  have h : (pid_control.pid_calc pid_control.init 10).dt_error = 0 + (10 - 0) := rfl
  rw [h]; norm_num

/-- C6 counterexample: a transport-level fatal failure (`exn true`) does not
terminate the receive loop and surfaces no error signal — the worker goes on
to process the next frame (value 5) as if nothing happened. -/
theorem C6_fatal_not_surfaced :
    (recv [ReadEvent.exn true, ReadEvent.sample 5]).errors_surfaced = 0 ∧
    (recv [ReadEvent.exn true, ReadEvent.sample 5]).samples = [5] :=
  ⟨rfl, rfl⟩

/-- C6 amended: every exception in the receive loop — per-frame parse error or
transport-level fatal failure alike — is caught and the loop continues; the
samples forwarded are exactly those of the well-formed frames, in order, no
error signal is ever surfaced to the UI, and the worker never terminates
early (it stops only via the `_alive` flag). -/
theorem C6_recv_swallows_all (events : List ReadEvent) :
    (recv events).samples = events.filterMap recv_event_value ∧
    (recv events).errors_surfaced = 0 ∧
    (recv events).processed_all = true := by
  refine ⟨?_, rfl, rfl⟩
  simpa using recv_foldl_eq events []

/-- C7: the cycle counter starts at 1 at construction, each `pid_calc` call
increments it by exactly 1 (after using it as the divisor), and after any
sequence of calls it equals the number of calls plus 1, hence is positive —
so the divisor `dt_error / cycle` used inside the next call is never 0. -/
theorem C7_cycle_counter :
    pid_control.init.cycle = 1 ∧
    (∀ (s : pid_control) (t : ℚ), (s.pid_calc t).cycle = s.cycle + 1) ∧
    (∀ ts : List ℚ, (step_seq ts).cycle = ts.length + 1 ∧ 0 < (step_seq ts).cycle) := by
  refine ⟨rfl, fun s t => rfl, fun ts => ?_⟩
  have h := foldl_pid_calc_cycle ts pid_control.init
  constructor
  · simpa [step_seq, pid_control.init, Nat.add_comm] using h
  · have h1 : pid_control.init.cycle = 1 := rfl
    simp only [step_seq]
    omega

/-- C9: `Worker.run` emits `finished` exactly once per run regardless of
outcome; it emits `error e` if and only if the wrapped function raised `e`
(the tuple of exception type, value and traceback), and emits `result a` if
and only if the function returned `a` without raising. -/
theorem C9_worker_signals (E A : Type) (r : Except E A) :
    (worker_run E A r).countP WSignal.isFinished = 1 ∧
    (∀ e : E, WSignal.error e ∈ worker_run E A r ↔ r = Except.error e) ∧
    (∀ a : A, WSignal.result a ∈ worker_run E A r ↔ r = Except.ok a) := by
  cases r with
  | error e0 =>
      refine ⟨?_, fun e => ?_, fun a => ?_⟩ <;>
        simp [worker_run, WSignal.isFinished, eq_comm]
  | ok a0 =>
      refine ⟨?_, fun e => ?_, fun a => ?_⟩ <;>
        simp [worker_run, WSignal.isFinished, eq_comm]

/-- C10: a fresh `pid_control()` has gains `(0.1, 0, 0.0001)`, process value
0, error 0, integral accumulator 0 and cycle counter 1; the session starts
with exactly this engine and setpoint 0, so the worker's first iteration
before any apply-parameters action steps the default engine toward 0. -/
theorem C10_fresh_defaults :
    pid_control.init.Kp = 0.1 ∧ pid_control.init.Ki = 0 ∧
    pid_control.init.Kd = 0.0001 ∧ pid_control.init.current_value = 0 ∧
    pid_control.init.error = 0 ∧ pid_control.init.dt_error = 0 ∧
    pid_control.init.cycle = 1 ∧
    session_init = ⟨pid_control.init, 0⟩ ∧
    calc_iter session_init.pid session_init.setpoint = calc_iter pid_control.init 0 :=
  ⟨rfl, rfl, rfl, rfl, rfl, rfl, rfl, rfl, rfl⟩
